import Mathlib

/-!
Shallow embedding of the Google Photos deletion script.

The repository contains two script variants:
* `delete-photos.js` — the plain variant (no stall detection): namespace `Plain`;
* the stall-detection variant (`runPhotoDeleter` with a stall counter): namespace `Stall`.

Shared between the two variants are the polling primitive `waitUntil`, the
`executeDeletion` action sequence, the configuration record and the DOM model.

Modelling decisions:
* `waitUntil` uses `setInterval(..., 250)`: we model time as poll ticks
  `k = 1, 2, 3, ...`, tick `k` occurring at elapsed time `k * 250` ms
  (the idealised interval timer).  At each tick the source first checks
  `Date.now() - startTime > timeout` and rejects, otherwise evaluates the
  probe and resolves when the result is truthy with `length > 0` or a
  `nodeType` field.
* DOM query results are `ProbeResult`: `noth` (null/undefined), `nodes n`
  (a NodeList of length `n`, as returned by `querySelectorAll`), or
  `element` (a single Element, as returned by `querySelector` / `find`).
* The externally controlled page is an `Env`: per loop-iteration facts about
  which controls exist.  Within one wait the page is quiescent, so loop
  probes are constant functions of the tick.
* The `while (true)` loop is given explicit fuel; `none` means the fuel ran
  out before the loop broke.
* JavaScript `String.prototype.includes` is modelled on the character lists.
-/

/-- A value returned by a DOM probe. -/
inductive ProbeResult where
  | noth : ProbeResult
  | nodes : Nat → ProbeResult
  | element : ProbeResult
deriving DecidableEq, Repr

/-- The acceptance test of `waitUntil`:
`result && (result.length > 0 || result.nodeType)`.
`null`/`undefined` is falsy; a NodeList is truthy but has no `nodeType`,
so it passes only when its `length` is positive; an Element has no `length`
(`undefined > 0` is false) but a truthy `nodeType`. -/
def truthyHit : ProbeResult → Bool
  | ProbeResult.noth => false
  | ProbeResult.nodes n => decide (0 < n)
  | ProbeResult.element => true

/-- The `.length` of a probe result (`undefined`, read as 0, on non-lists). -/
def resultLength : ProbeResult → Nat
  | ProbeResult.nodes n => n
  | _ => 0

/-- The hard-coded `setInterval` period: 250 ms. -/
def pollIntervalMs : Nat := 250

/-- The message of the rejection built by `waitUntil` on timeout. -/
def timeoutMessage (description : String) (timeout : Nat) : String :=
  "Timeout: Could not find " ++ description ++ " after " ++
    toString (timeout / 1000) ++ " seconds."

/-- Outcome of one `waitUntil` call: the resolved probe result or the
timeout rejection, each tagged with the tick at which it happened. -/
inductive WaitResult where
  | found : ProbeResult → Nat → WaitResult
  | timedOut : String → Nat → WaitResult
deriving DecidableEq, Repr

/-- The interval callback of `waitUntil`, at tick `k` (elapsed `k * 250` ms):
reject once the elapsed time exceeds the timeout, otherwise run the probe and
resolve on a truthy hit, else wait for the next tick.  `fuel` bounds the
recursion; the caller passes enough fuel that the base case is unreachable
(the timeout test fires first), and the base case returns the same rejection. -/
def waitUntilGo (probe : Nat → ProbeResult) (description : String)
    (timeout : Nat) : Nat → Nat → WaitResult
  | k, 0 => WaitResult.timedOut (timeoutMessage description timeout) k
  | k, fuel + 1 =>
    if k * pollIntervalMs > timeout then
      WaitResult.timedOut (timeoutMessage description timeout) k
    else if truthyHit (probe k) then WaitResult.found (probe k) k
    else waitUntilGo probe description timeout (k + 1) fuel

/-- Model of `waitUntil(condition, description, timeout)`: poll from tick 1.
`timeout / pollIntervalMs + 1` ticks always reach the rejection tick. -/
def waitUntil (probe : Nat → ProbeResult) (description : String)
    (timeout : Nat) : WaitResult :=
  waitUntilGo probe description timeout 1 (timeout / pollIntervalMs + 1)

/-- View a `WaitResult` as the `await`ed value or the thrown error message. -/
def WaitResult.toExcept : WaitResult → Except String ProbeResult
  | WaitResult.found r _ => Except.ok r
  | WaitResult.timedOut m _ => Except.error m

/-- A probe over a quiescent page: the same result at every tick. -/
def constProbe (r : ProbeResult) : Nat → ProbeResult := fun _ => r

/-- Whether `sub` occurs contiguously in the list (checked prefix-by-prefix). -/
def listIsInfix (sub : List Char) : List Char → Bool
  | [] => sub.isPrefixOf []
  | c :: rest => sub.isPrefixOf (c :: rest) || listIsInfix sub rest

/-- JavaScript `s.includes(sub)`: `sub` occurs contiguously in `s`. -/
def jsIncludes (s sub : String) : Bool := listIsInfix sub.data s.data

/-- The selector set of `CONFIG.selectors` (identical in both variants). -/
structure Selectors where
  checkbox : String
  photoContainer : String
  deleteButton : String
  confirmationButtonText : String
deriving Repr

def theSelectors : Selectors where
  checkbox := ".ckGgle[aria-checked=false]"
  photoContainer := "div[jsname=\x27fPosBb\x27]"
  deleteButton := "button[aria-label=\"Move to trash\"]"
  confirmationButtonText := "Move to trash"

/-- The `CONFIG` record of the plain variant (`delete-photos.js`). -/
structure Config where
  actionDelay : Nat
  timeout : Nat
  selectors : Selectors
deriving Repr

def CONFIG : Config where
  actionDelay := 1000
  timeout := 30000
  selectors := theSelectors

/-- The `CONFIG` record of the stall-detection variant: adds `stallLimit`. -/
structure ConfigS where
  actionDelay : Nat
  timeout : Nat
  stallLimit : Nat
  selectors : Selectors
deriving Repr

def CONFIGS : ConfigS where
  actionDelay := 1000
  timeout := 30000
  stallLimit := 5
  selectors := theSelectors

/-- The externally controlled page, viewed per loop iteration `i`.  The page
is quiescent during each wait; its visible state changes only in response to
the script's own delete-confirm action, which advances the iteration. -/
structure Env where
  containerAt : Nat → Bool
  batchAt : Nat → Nat
  deleteBtnAt : Nat → Bool
  buttonTextsAt : Nat → List String
  afterAt : Nat → Nat
  boxFailsAt : Nat → Nat → Bool

/-- Result of `document.querySelector(CONFIG.selectors.photoContainer)` at iteration `i`. -/
def containerProbe (env : Env) (i : Nat) : ProbeResult :=
  if env.containerAt i then ProbeResult.element else ProbeResult.noth

/-- Result of `document.querySelectorAll(CONFIG.selectors.checkbox)` at iteration `i`:
a NodeList of the currently selectable controls. -/
def checkboxProbe (env : Env) (i : Nat) : ProbeResult :=
  ProbeResult.nodes (env.batchAt i)

/-- Result of `document.querySelector(CONFIG.selectors.deleteButton)` at iteration `i`. -/
def deleteButtonProbe (env : Env) (i : Nat) : ProbeResult :=
  if env.deleteBtnAt i then ProbeResult.element else ProbeResult.noth

/-- Result of `Array.from(document.querySelectorAll("button")).find(b => b.textContent
=== CONFIG.selectors.confirmationButtonText)` at iteration `i`: an element
exactly when some button text equals the configured text exactly. -/
def confirmButtonProbe (env : Env) (i : Nat) : ProbeResult :=
  if (env.buttonTextsAt i).any
      (fun b => b == CONFIG.selectors.confirmationButtonText)
  then ProbeResult.element else ProbeResult.noth

/-- Observable actions performed by `executeDeletion`, in order. -/
inductive Event where
  | clickDelete : Event
  | clickConfirm : Event
  | sleepMs : Nat → Event
deriving DecidableEq, Repr

/-- Model of `executeDeletion()` (textually identical in both variants): wait for the
primary delete control and click it, then wait for the confirmation button
found by exact text and click it, then `sleep(CONFIG.actionDelay)`.  Returns
the actions performed in order, and the thrown error message if a wait
rejected. -/
def executeDeletion (env : Env) (i : Nat) : List Event × Option String :=
  match (waitUntil (constProbe (deleteButtonProbe env i))
      "main \"Move to trash\" button" CONFIG.timeout).toExcept with
  | Except.error m => ([], some m)
  | Except.ok _ =>
    match (waitUntil (constProbe (confirmButtonProbe env i))
        "confirmation \"Move to trash\" button" CONFIG.timeout).toExcept with
    | Except.error m => ([Event.clickDelete], some m)
    | Except.ok _ =>
      ([Event.clickDelete, Event.clickConfirm, Event.sleepMs CONFIG.actionDelay],
        none)

/-- Outcome of one `box.click()` under its own `try`/`catch`. -/
inductive SelectOutcome where
  | clicked : SelectOutcome
  | warned : SelectOutcome
deriving DecidableEq, Repr

/-- The `for (const box of checkBoxes)` selection loop: every control is
attempted; a throwing click is caught and only logged, never aborting. -/
def selectBatch (failsAt : Nat → Bool) (n : Nat) : List SelectOutcome :=
  (List.range n).map
    (fun j => if failsAt j then SelectOutcome.warned else SelectOutcome.clicked)

/-- Terminal outcome of `runPhotoDeleter`: `done` is the normal break
("Mission accomplished"), `halted` the `[SCRIPT HALTED]` path of the
stall-detection variant; both carry the reported `totalDeleted`. -/
inductive RunOutcome where
  | done : Nat → RunOutcome
  | halted : Nat → String → RunOutcome
deriving DecidableEq, Repr

namespace Plain

/-- The `try` block of one iteration of `delete-photos.js`'s loop.
`totalDeleted += checkBoxes.length` happens before `executeDeletion`, so an
error thrown there carries the already-updated total. -/
def iterBody (env : Env) (i : Nat) (totalDeleted : Nat) :
    Except (String × Nat) Nat :=
  match (waitUntil (constProbe (containerProbe env i))
      "main photo container" CONFIG.timeout).toExcept with
  | Except.error m => Except.error (m, totalDeleted)
  | Except.ok _ =>
    match (waitUntil (constProbe (checkboxProbe env i))
        "any selectable photo" CONFIG.timeout).toExcept with
    | Except.error m => Except.error (m, totalDeleted)
    | Except.ok checkBoxes =>
      let n := resultLength checkBoxes
      let _sel := selectBatch (env.boxFailsAt i) n
      let total1 := totalDeleted + n
      match executeDeletion env i with
      | (_, some m) => Except.error (m, total1)
      | (_, none) => Except.ok total1

/-- The `while (true)` loop of `delete-photos.js`: any caught error breaks
the loop, logging "Mission accomplished", and the accumulated total is
reported.  Fuel bounds the number of iterations; `none` = fuel exhausted. -/
def runLoop (env : Env) : Nat → Nat → Nat → Option RunOutcome
  | _, _, 0 => none
  | i, totalDeleted, fuel + 1 =>
    match iterBody env i totalDeleted with
    | Except.ok t => runLoop env (i + 1) t fuel
    | Except.error (_, t) => some (RunOutcome.done t)

/-- Model of `runPhotoDeleter()` of `delete-photos.js`. -/
def runPhotoDeleter (env : Env) (fuel : Nat) : Option RunOutcome :=
  runLoop env 0 0 fuel

end Plain

namespace Stall

/-- The mutable run state of the stall-detection variant. -/
structure LoopState where
  totalDeleted : Nat
  stallCounter : Nat
deriving DecidableEq, Repr

/-- The message of the error thrown when the stall limit is reached. -/
def stallMessage : String :=
  "Stall Detected. Google is likely rate-limiting you. The script will now stop."

/-- The `try` block of one iteration of the stall-detection variant's loop:
waits, selection, `executeDeletion`, then the stall-detection logic.  The
verification re-poll runs under its own `try`/`catch` with a 5000 ms
timeout; its rejection is swallowed as `photoCountAfter = 0`. -/
def iterBody (env : Env) (i : Nat) (st : LoopState) :
    Except String LoopState :=
  match (waitUntil (constProbe (containerProbe env i))
      "main photo container" CONFIGS.timeout).toExcept with
  | Except.error m => Except.error m
  | Except.ok _ =>
    match (waitUntil (constProbe (checkboxProbe env i))
        "any selectable photo" CONFIGS.timeout).toExcept with
    | Except.error m => Except.error m
    | Except.ok checkBoxes =>
      let photoCountBefore := resultLength checkBoxes
      let _sel := selectBatch (env.boxFailsAt i) photoCountBefore
      match executeDeletion env i with
      | (_, some m) => Except.error m
      | (_, none) =>
        let photoCountAfter :=
          match (waitUntil (constProbe (ProbeResult.nodes (env.afterAt i)))
              "any selectable photo" 5000).toExcept with
          | Except.ok checkBoxesAfter => resultLength checkBoxesAfter
          | Except.error _ => 0
        if photoCountAfter ≥ photoCountBefore then
          let stallCounter1 := st.stallCounter + 1
          if stallCounter1 ≥ CONFIGS.stallLimit then
            Except.error stallMessage
          else
            Except.ok { totalDeleted := st.totalDeleted,
                        stallCounter := stallCounter1 }
        else
          Except.ok
            { totalDeleted :=
                st.totalDeleted + (photoCountBefore - photoCountAfter),
              stallCounter := 0 }

/-- The `while (true)` loop of the stall-detection variant: a caught error
whose message includes "any selectable photo" is the no-more-items case
(normal break); any other caught error is the `[SCRIPT HALTED]` case. -/
def runLoop (env : Env) : Nat → LoopState → Nat → Option RunOutcome
  | _, _, 0 => none
  | i, st, fuel + 1 =>
    match iterBody env i st with
    | Except.ok st1 => runLoop env (i + 1) st1 fuel
    | Except.error m =>
      if jsIncludes m "any selectable photo" then
        some (RunOutcome.done st.totalDeleted)
      else
        some (RunOutcome.halted st.totalDeleted m)

/-- Model of `runPhotoDeleter()` of the stall-detection variant. -/
def runPhotoDeleter (env : Env) (fuel : Nat) : Option RunOutcome :=
  runLoop env 0 { totalDeleted := 0, stallCounter := 0 } fuel

end Stall

/-! ### Lemmas about the polling primitive -/

/-- With a probe that never hits, the interval callback runs until the first
tick past the timeout, `t / pollIntervalMs + 1`, and rejects there. -/
theorem waitUntilGo_never (probe : Nat → ProbeResult) (d : String) (t : Nat)
    (h : ∀ k, truthyHit (probe k) = false) :
    ∀ fuel k, 0 < k → k + fuel = t / pollIntervalMs + 2 →
      k ≤ t / pollIntervalMs + 1 →
      waitUntilGo probe d t k fuel =
        WaitResult.timedOut (timeoutMessage d t) (t / pollIntervalMs + 1) := by
  intro fuel
  induction fuel with
  | zero =>
    intro k _ hsum hle
    omega
  | succ fuel ih =>
    intro k hk0 hsum hle
    rw [waitUntilGo]
    by_cases hk : k * pollIntervalMs > t
    · rw [if_pos hk]
      have hkeq : k = t / pollIntervalMs + 1 := by
        simp only [pollIntervalMs] at hk hle ⊢
        omega
      rw [hkeq]
    · rw [if_neg hk, h k, if_neg (by simp)]
      apply ih (k + 1) (by omega) (by omega)
      simp only [pollIntervalMs] at hk ⊢
      omega

/-- With a never-hitting probe, `waitUntil` rejects with the timeout message,
at tick `t / pollIntervalMs + 1`. -/
theorem waitUntil_never (probe : Nat → ProbeResult) (d : String) (t : Nat)
    (h : ∀ k, truthyHit (probe k) = false) :
    waitUntil probe d t =
      WaitResult.timedOut (timeoutMessage d t) (t / pollIntervalMs + 1) := by
  unfold waitUntil
  exact waitUntilGo_never probe d t h (t / pollIntervalMs + 1) 1 (by omega)
    (by simp only [pollIntervalMs]; omega) (by simp only [pollIntervalMs]; omega)

/-- If tick `k0` is the first hit and lies inside the window, the interval
callback resolves there with the probe's result. -/
theorem waitUntilGo_found (probe : Nat → ProbeResult) (d : String) (t k0 : Nat)
    (htr : truthyHit (probe k0) = true) (hlim : k0 * pollIntervalMs ≤ t) :
    ∀ fuel k, 0 < k → k ≤ k0 →
      (∀ j, k ≤ j → j < k0 → truthyHit (probe j) = false) →
      k0 < k + fuel →
      waitUntilGo probe d t k fuel = WaitResult.found (probe k0) k0 := by
  intro fuel
  induction fuel with
  | zero =>
    intro k _ hle _ hfuel
    omega
  | succ fuel ih =>
    intro k hk0 hle hmin hfuel
    rw [waitUntilGo]
    have hkt : ¬ k * pollIntervalMs > t := by
      simp only [pollIntervalMs] at hlim ⊢
      omega
    rw [if_neg hkt]
    by_cases hk : k = k0
    · subst hk
      rw [if_pos htr]
    · rw [hmin k (Nat.le_refl k) (by omega), if_neg (by simp)]
      exact ih (k + 1) (by omega) (by omega)
        (fun j h1 h2 => hmin j (by omega) h2) (by omega)

/-- With a first hitting tick inside the window, `waitUntil` resolves there,
when that tick lies inside the timeout window. -/
theorem waitUntil_found (probe : Nat → ProbeResult) (d : String) (t k0 : Nat)
    (hk0 : 0 < k0) (htr : truthyHit (probe k0) = true)
    (hmin : ∀ j, 0 < j → j < k0 → truthyHit (probe j) = false)
    (hlim : k0 * pollIntervalMs ≤ t) :
    waitUntil probe d t = WaitResult.found (probe k0) k0 := by
  unfold waitUntil
  apply waitUntilGo_found probe d t k0 htr hlim (t / pollIntervalMs + 1) 1
    (by omega) (by omega) (fun j h1 h2 => hmin j (by omega) h2)
  simp only [pollIntervalMs] at hlim ⊢
  omega

/-- A quiescent-page wait on a truthy result resolves at the first tick. -/
theorem waitUntil_const_truthy (r : ProbeResult) (d : String) (t : Nat)
    (htr : truthyHit r = true) (ht : pollIntervalMs ≤ t) :
    waitUntil (constProbe r) d t = WaitResult.found r 1 :=
  waitUntil_found (constProbe r) d t 1 (by omega) htr
    (fun j h1 h2 => by omega) (by simpa using ht)

/-- A quiescent-page wait on a falsy result rejects with the timeout message. -/
theorem waitUntil_const_falsy (r : ProbeResult) (d : String) (t : Nat)
    (htr : truthyHit r = false) :
    waitUntil (constProbe r) d t =
      WaitResult.timedOut (timeoutMessage d t) (t / pollIntervalMs + 1) :=
  waitUntil_never (constProbe r) d t (fun _ => htr)

/-- Awaiting `waitUntil(...)` on a quiescent truthy result yields the result. -/
theorem toExcept_const_truthy (r : ProbeResult) (d : String) (t : Nat)
    (htr : truthyHit r = true) (ht : pollIntervalMs ≤ t) :
    (waitUntil (constProbe r) d t).toExcept = Except.ok r := by
  rw [waitUntil_const_truthy r d t htr ht]
  rfl

/-- Awaiting `waitUntil(...)` on a quiescent falsy result throws the timeout. -/
theorem toExcept_const_falsy (r : ProbeResult) (d : String) (t : Nat)
    (htr : truthyHit r = false) :
    (waitUntil (constProbe r) d t).toExcept =
      Except.error (timeoutMessage d t) := by
  rw [waitUntil_const_falsy r d t htr]
  rfl

/-! ### Evaluation lemmas for one loop iteration -/

/-- The confirmation text is present among the page's buttons. -/
def confirmAvailable (env : Env) (i : Nat) : Bool :=
  (env.buttonTextsAt i).any
    (fun b => b == CONFIG.selectors.confirmationButtonText)

theorem containerProbe_present (env : Env) (i : Nat)
    (hc : env.containerAt i = true) :
    containerProbe env i = ProbeResult.element := by
  simp [containerProbe, hc]

theorem containerProbe_absent (env : Env) (i : Nat)
    (hc : env.containerAt i = false) :
    containerProbe env i = ProbeResult.noth := by
  simp [containerProbe, hc]

theorem deleteButtonProbe_present (env : Env) (i : Nat)
    (hd : env.deleteBtnAt i = true) :
    deleteButtonProbe env i = ProbeResult.element := by
  simp [deleteButtonProbe, hd]

theorem deleteButtonProbe_absent (env : Env) (i : Nat)
    (hd : env.deleteBtnAt i = false) :
    deleteButtonProbe env i = ProbeResult.noth := by
  simp [deleteButtonProbe, hd]

theorem confirmButtonProbe_present (env : Env) (i : Nat)
    (hcf : confirmAvailable env i = true) :
    confirmButtonProbe env i = ProbeResult.element := by
  simp only [confirmButtonProbe, confirmAvailable] at hcf ⊢
  rw [if_pos hcf]

theorem confirmButtonProbe_absent (env : Env) (i : Nat)
    (hcf : confirmAvailable env i = false) :
    confirmButtonProbe env i = ProbeResult.noth := by
  simp only [confirmButtonProbe, confirmAvailable] at hcf ⊢
  rw [if_neg (by simp [hcf])]

theorem truthyHit_nodes_pos (n : Nat) (hn : 0 < n) :
    truthyHit (ProbeResult.nodes n) = true := by
  simp [truthyHit]
  omega

/-- Plain variant, successful iteration: all waits resolve on a quiescent
page with a positive batch, and the total grows by the batch size. -/
theorem iterBodyPlain_ok (env : Env) (i T : Nat)
    (hc : env.containerAt i = true) (hb : 0 < env.batchAt i)
    (hd : env.deleteBtnAt i = true) (hcf : confirmAvailable env i = true) :
    Plain.iterBody env i T = Except.ok (T + env.batchAt i) := by
  unfold Plain.iterBody executeDeletion
  rw [containerProbe_present env i hc,
    toExcept_const_truthy ProbeResult.element "main photo container"
      CONFIG.timeout rfl (by decide)]
  rw [show checkboxProbe env i = ProbeResult.nodes (env.batchAt i) from rfl,
    toExcept_const_truthy (ProbeResult.nodes (env.batchAt i))
      "any selectable photo" CONFIG.timeout (truthyHit_nodes_pos _ hb)
      (by decide)]
  rw [deleteButtonProbe_present env i hd,
    toExcept_const_truthy ProbeResult.element "main \"Move to trash\" button"
      CONFIG.timeout rfl (by decide)]
  rw [confirmButtonProbe_present env i hcf,
    toExcept_const_truthy ProbeResult.element
      "confirmation \"Move to trash\" button" CONFIG.timeout rfl (by decide)]
  rfl

/-- Plain variant: no container on the page; the container wait times out
and the error carries the unchanged total. -/
theorem iterBodyPlain_noContainer (env : Env) (i T : Nat)
    (hc : env.containerAt i = false) :
    Plain.iterBody env i T =
      Except.error (timeoutMessage "main photo container" CONFIG.timeout, T) := by
  unfold Plain.iterBody
  rw [containerProbe_absent env i hc,
    toExcept_const_falsy ProbeResult.noth "main photo container"
      CONFIG.timeout rfl]

/-- Plain variant: container present but no selectable photos; the checkbox
wait times out and the error carries the unchanged total. -/
theorem iterBodyPlain_noItems (env : Env) (i T : Nat)
    (hc : env.containerAt i = true) (hb : env.batchAt i = 0) :
    Plain.iterBody env i T =
      Except.error (timeoutMessage "any selectable photo" CONFIG.timeout, T) := by
  unfold Plain.iterBody
  rw [containerProbe_present env i hc,
    toExcept_const_truthy ProbeResult.element "main photo container"
      CONFIG.timeout rfl (by decide)]
  rw [show checkboxProbe env i = ProbeResult.nodes (env.batchAt i) from rfl]
  rw [hb, toExcept_const_falsy (ProbeResult.nodes 0) "any selectable photo"
    CONFIG.timeout (by simp [truthyHit])]

/-- Plain variant: the delete button never appears; `executeDeletion` throws
after the total was already incremented by the batch size. -/
theorem iterBodyPlain_noDeleteBtn (env : Env) (i T : Nat)
    (hc : env.containerAt i = true) (hb : 0 < env.batchAt i)
    (hd : env.deleteBtnAt i = false) :
    Plain.iterBody env i T =
      Except.error (timeoutMessage "main \"Move to trash\" button" CONFIG.timeout,
        T + env.batchAt i) := by
  unfold Plain.iterBody executeDeletion
  rw [containerProbe_present env i hc,
    toExcept_const_truthy ProbeResult.element "main photo container"
      CONFIG.timeout rfl (by decide)]
  rw [show checkboxProbe env i = ProbeResult.nodes (env.batchAt i) from rfl,
    toExcept_const_truthy (ProbeResult.nodes (env.batchAt i))
      "any selectable photo" CONFIG.timeout (truthyHit_nodes_pos _ hb)
      (by decide)]
  rw [deleteButtonProbe_absent env i hd,
    toExcept_const_falsy ProbeResult.noth "main \"Move to trash\" button"
      CONFIG.timeout rfl]
  rfl

/-- Stall variant, one iteration in which all four waits resolve (container,
batch, delete button, confirmation button all present, batch positive):
the result is decided by the stall-detection comparison of the post-action
count `afterAt i` (the verification re-poll yields exactly it, a 5000 ms
timeout standing in for count 0) against the pre-action count `batchAt i`. -/
theorem iterBodyStall_eval (env : Env) (i : Nat) (st : Stall.LoopState)
    (hc : env.containerAt i = true) (hb : 0 < env.batchAt i)
    (hd : env.deleteBtnAt i = true) (hcf : confirmAvailable env i = true) :
    Stall.iterBody env i st =
      (if env.afterAt i ≥ env.batchAt i then
        (if st.stallCounter + 1 ≥ CONFIGS.stallLimit then
          Except.error Stall.stallMessage
        else
          Except.ok { totalDeleted := st.totalDeleted,
                      stallCounter := st.stallCounter + 1 })
      else
        Except.ok
          { totalDeleted :=
              st.totalDeleted + (env.batchAt i - env.afterAt i),
            stallCounter := 0 }) := by
  unfold Stall.iterBody executeDeletion
  rw [containerProbe_present env i hc,
    toExcept_const_truthy ProbeResult.element "main photo container"
      CONFIGS.timeout rfl (by decide)]
  rw [show checkboxProbe env i = ProbeResult.nodes (env.batchAt i) from rfl,
    toExcept_const_truthy (ProbeResult.nodes (env.batchAt i))
      "any selectable photo" CONFIGS.timeout (truthyHit_nodes_pos _ hb)
      (by decide)]
  rw [deleteButtonProbe_present env i hd,
    toExcept_const_truthy ProbeResult.element "main \"Move to trash\" button"
      CONFIG.timeout rfl (by decide)]
  rw [confirmButtonProbe_present env i hcf,
    toExcept_const_truthy ProbeResult.element
      "confirmation \"Move to trash\" button" CONFIG.timeout rfl (by decide)]
  by_cases ha : 0 < env.afterAt i
  · rw [toExcept_const_truthy (ProbeResult.nodes (env.afterAt i))
      "any selectable photo" 5000 (truthyHit_nodes_pos _ ha) (by decide)]
    rfl
  · have ha0 : env.afterAt i = 0 := by omega
    rw [ha0, toExcept_const_falsy (ProbeResult.nodes 0) "any selectable photo"
      5000 (by simp [truthyHit])]
    rfl

/-- Stall variant: no container; the container wait's timeout is thrown. -/
theorem iterBodyStall_noContainer (env : Env) (i : Nat) (st : Stall.LoopState)
    (hc : env.containerAt i = false) :
    Stall.iterBody env i st =
      Except.error (timeoutMessage "main photo container" CONFIGS.timeout) := by
  unfold Stall.iterBody
  rw [containerProbe_absent env i hc,
    toExcept_const_falsy ProbeResult.noth "main photo container"
      CONFIGS.timeout rfl]

/-- Stall variant: container present but no selectable photos; the checkbox
wait's timeout is thrown. -/
theorem iterBodyStall_noItems (env : Env) (i : Nat) (st : Stall.LoopState)
    (hc : env.containerAt i = true) (hb : env.batchAt i = 0) :
    Stall.iterBody env i st =
      Except.error (timeoutMessage "any selectable photo" CONFIGS.timeout) := by
  unfold Stall.iterBody
  rw [containerProbe_present env i hc,
    toExcept_const_truthy ProbeResult.element "main photo container"
      CONFIGS.timeout rfl (by decide)]
  rw [show checkboxProbe env i = ProbeResult.nodes (env.batchAt i) from rfl]
  rw [hb, toExcept_const_falsy (ProbeResult.nodes 0) "any selectable photo"
    CONFIGS.timeout (by simp [truthyHit])]

/-- Stall variant: the delete button never appears; `executeDeletion`'s
timeout error is rethrown by the iteration. -/
theorem iterBodyStall_noDeleteBtn (env : Env) (i : Nat) (st : Stall.LoopState)
    (hc : env.containerAt i = true) (hb : 0 < env.batchAt i)
    (hd : env.deleteBtnAt i = false) :
    Stall.iterBody env i st =
      Except.error (timeoutMessage "main \"Move to trash\" button"
        CONFIG.timeout) := by
  unfold Stall.iterBody executeDeletion
  rw [containerProbe_present env i hc,
    toExcept_const_truthy ProbeResult.element "main photo container"
      CONFIGS.timeout rfl (by decide)]
  rw [show checkboxProbe env i = ProbeResult.nodes (env.batchAt i) from rfl,
    toExcept_const_truthy (ProbeResult.nodes (env.batchAt i))
      "any selectable photo" CONFIGS.timeout (truthyHit_nodes_pos _ hb)
      (by decide)]
  rw [deleteButtonProbe_absent env i hd,
    toExcept_const_falsy ProbeResult.noth "main \"Move to trash\" button"
      CONFIG.timeout rfl]

/-- Stall variant: the delete button appears but no button ever carries the
exact confirmation text; the confirmation wait's timeout error is rethrown
by the iteration. -/
theorem iterBodyStall_noConfirmBtn (env : Env) (i : Nat) (st : Stall.LoopState)
    (hc : env.containerAt i = true) (hb : 0 < env.batchAt i)
    (hd : env.deleteBtnAt i = true) (hcf : confirmAvailable env i = false) :
    Stall.iterBody env i st =
      Except.error (timeoutMessage "confirmation \"Move to trash\" button"
        CONFIG.timeout) := by
  unfold Stall.iterBody executeDeletion
  rw [containerProbe_present env i hc,
    toExcept_const_truthy ProbeResult.element "main photo container"
      CONFIGS.timeout rfl (by decide)]
  rw [show checkboxProbe env i = ProbeResult.nodes (env.batchAt i) from rfl,
    toExcept_const_truthy (ProbeResult.nodes (env.batchAt i))
      "any selectable photo" CONFIGS.timeout (truthyHit_nodes_pos _ hb)
      (by decide)]
  rw [deleteButtonProbe_present env i hd,
    toExcept_const_truthy ProbeResult.element "main \"Move to trash\" button"
      CONFIG.timeout rfl (by decide)]
  rw [confirmButtonProbe_absent env i hcf,
    toExcept_const_falsy ProbeResult.noth
      "confirmation \"Move to trash\" button" CONFIG.timeout rfl]

/-! ### Facts about the catch discrimination of the stall variant -/

/-- The checkbox-wait timeout message does name "any selectable photo". -/
theorem includes_noItems :
    jsIncludes (timeoutMessage "any selectable photo" CONFIGS.timeout)
      "any selectable photo" = true := by decide

/-- The container-wait timeout message does not. -/
theorem includes_noContainer :
    jsIncludes (timeoutMessage "main photo container" CONFIGS.timeout)
      "any selectable photo" = false := by decide

/-- The delete-button-wait timeout message does not. -/
theorem includes_noDeleteBtn :
    jsIncludes (timeoutMessage "main \"Move to trash\" button" CONFIG.timeout)
      "any selectable photo" = false := by decide

/-- The confirmation-button-wait timeout message does not. -/
theorem includes_noConfirmBtn :
    jsIncludes (timeoutMessage "confirmation \"Move to trash\" button"
      CONFIG.timeout) "any selectable photo" = false := by decide

/-- The stall error message does not. -/
theorem includes_stallMessage :
    jsIncludes Stall.stallMessage "any selectable photo" = false := by decide

/-! ### The batch-presentation scenario -/

/-- The simulated UI of the batch scenario: starting at iteration `i` the
page presents the batches `bs` one per iteration — container and both delete
controls present, the batch's selectable controls visible before the action
and gone after it (post-action re-poll count 0) — and, once `bs` is
exhausted, the container remains but no selectable control ever appears. -/
def presentsBatches (env : Env) (i : Nat) (bs : List Nat) : Prop :=
  (∀ j, j < bs.length →
    env.containerAt (i + j) = true ∧ env.batchAt (i + j) = bs.getD j 0 ∧
    env.deleteBtnAt (i + j) = true ∧ confirmAvailable env (i + j) = true ∧
    env.afterAt (i + j) = 0) ∧
  env.containerAt (i + bs.length) = true ∧ env.batchAt (i + bs.length) = 0

theorem presentsBatches_shift (env : Env) (i : Nat) (b : Nat) (rest : List Nat)
    (h : presentsBatches env i (b :: rest)) :
    presentsBatches env (i + 1) rest := by
  obtain ⟨hall, hcont, hzero⟩ := h
  refine ⟨fun j hj => ?_, ?_, ?_⟩
  · have := hall (j + 1) (by simp; omega)
    rw [show i + 1 + j = i + (j + 1) from by omega]
    simpa using this
  · rw [show i + 1 + rest.length = i + (b :: rest).length from by simp; omega]
    exact hcont
  · rw [show i + 1 + rest.length = i + (b :: rest).length from by simp; omega]
    exact hzero

/-- Plain variant loop on the batch scenario: each presented batch adds its
size to the total, and the run breaks normally when the batches run out. -/
theorem runLoopPlain_batches (env : Env) (bs : List Nat) :
    ∀ i T fuel, presentsBatches env i bs → (∀ x ∈ bs, 0 < x) →
      bs.length < fuel →
      Plain.runLoop env i T fuel = some (RunOutcome.done (T + bs.sum)) := by
  induction bs with
  | nil =>
    intro i T fuel hpres _ hfuel
    obtain ⟨_, hcont, hzero⟩ := hpres
    match fuel, hfuel with
    | fuel + 1, _ =>
      rw [Plain.runLoop]
      rw [iterBodyPlain_noItems env i T (by simpa using hcont)
        (by simpa using hzero)]
      simp
  | cons b rest ih =>
    intro i T fuel hpres hpos hfuel
    have h0 := hpres.1 0 (by simp)
    simp only [Nat.add_zero, List.getD_cons_zero] at h0
    obtain ⟨hc, hbv, hd, hcf, _⟩ := h0
    have hbpos : 0 < b := hpos b (List.mem_cons_self b rest)
    match fuel, hfuel with
    | fuel + 1, hfuel =>
      rw [Plain.runLoop]
      rw [iterBodyPlain_ok env i T hc (by omega) hd hcf]
      rw [hbv]
      show Plain.runLoop env (i + 1) (T + b) fuel =
        some (RunOutcome.done (T + (b :: rest).sum))
      have := ih (i + 1) (T + b) fuel (presentsBatches_shift env i b rest hpres)
        (fun x hx => hpos x (List.mem_cons_of_mem b hx))
        (by simp at hfuel ⊢; omega)
      rw [this]
      simp [Nat.add_assoc]

theorem stallLimit_eq : CONFIGS.stallLimit = 5 := rfl

/-- Stall variant loop on the batch scenario: each batch's deletion is
verified (post-action count 0 beats the pre-action count), its size is
accumulated, and the run breaks normally when the batches run out. -/
theorem runLoopStall_batches (env : Env) (bs : List Nat) :
    ∀ i st fuel, presentsBatches env i bs → (∀ x ∈ bs, 0 < x) →
      bs.length < fuel →
      Stall.runLoop env i st fuel =
        some (RunOutcome.done (st.totalDeleted + bs.sum)) := by
  induction bs with
  | nil =>
    intro i st fuel hpres _ hfuel
    obtain ⟨_, hcont, hzero⟩ := hpres
    match fuel, hfuel with
    | fuel + 1, _ =>
      rw [Stall.runLoop]
      rw [iterBodyStall_noItems env i st (by simpa using hcont)
        (by simpa using hzero)]
      simp [includes_noItems]
  | cons b rest ih =>
    intro i st fuel hpres hpos hfuel
    have h0 := hpres.1 0 (by simp)
    simp only [Nat.add_zero, List.getD_cons_zero] at h0
    obtain ⟨hc, hbv, hd, hcf, hav⟩ := h0
    have hbpos : 0 < b := hpos b (List.mem_cons_self b rest)
    match fuel, hfuel with
    | fuel + 1, hfuel =>
      rw [Stall.runLoop]
      rw [iterBodyStall_eval env i st hc (by omega) hd hcf]
      rw [hbv, hav]
      rw [if_neg (by omega)]
      show Stall.runLoop env (i + 1)
          { totalDeleted := st.totalDeleted + (b - 0), stallCounter := 0 }
          fuel = some (RunOutcome.done (st.totalDeleted + (b :: rest).sum))
      rw [ih (i + 1)
        { totalDeleted := st.totalDeleted + (b - 0), stallCounter := 0 } fuel
        (presentsBatches_shift env i b rest hpres)
        (fun x hx => hpos x (List.mem_cons_of_mem b hx))
        (by simp at hfuel ⊢; omega)]
      simp [Nat.add_assoc]

/-- The page state of a stalled iteration: everything needed for the action
is present, but the post-action re-poll count has not decreased. -/
def stallsAt (env : Env) (i : Nat) : Prop :=
  env.containerAt i = true ∧ 0 < env.batchAt i ∧ env.deleteBtnAt i = true ∧
  confirmAvailable env i = true ∧ env.batchAt i ≤ env.afterAt i

/-- Stall variant loop: starting with stall counter `c`, after
`CONFIGS.stallLimit - c` consecutive stalled iterations the stall error is
thrown and the run halts with the total unchanged. -/
theorem runLoopStall_stalls (env : Env) :
    ∀ k i c T fuel, c + (k + 1) = CONFIGS.stallLimit →
      (∀ j, j < k + 1 → stallsAt env (i + j)) →
      k < fuel →
      Stall.runLoop env i { totalDeleted := T, stallCounter := c } fuel =
        some (RunOutcome.halted T Stall.stallMessage) := by
  intro k
  induction k with
  | zero =>
    intro i c T fuel hsum hstall hfuel
    obtain ⟨hc, hb, hd, hcf, hge⟩ := hstall 0 (by omega)
    simp only [Nat.add_zero] at hc hb hd hcf hge
    match fuel, hfuel with
    | fuel + 1, _ =>
      rw [Stall.runLoop]
      rw [iterBodyStall_eval env i _ hc hb hd hcf]
      rw [if_pos hge]
      have hcond : ({ totalDeleted := T, stallCounter := c } :
          Stall.LoopState).stallCounter + 1 ≥ CONFIGS.stallLimit := by
        show c + 1 ≥ CONFIGS.stallLimit
        omega
      rw [if_pos hcond]
      simp [includes_stallMessage]
  | succ k ih =>
    intro i c T fuel hsum hstall hfuel
    obtain ⟨hc, hb, hd, hcf, hge⟩ := hstall 0 (by omega)
    simp only [Nat.add_zero] at hc hb hd hcf hge
    match fuel, hfuel with
    | fuel + 1, hfuel =>
      rw [Stall.runLoop]
      rw [iterBodyStall_eval env i _ hc hb hd hcf]
      rw [if_pos hge]
      have hcond : ¬ (({ totalDeleted := T, stallCounter := c } :
          Stall.LoopState).stallCounter + 1 ≥ CONFIGS.stallLimit) := by
        show ¬ (c + 1 ≥ CONFIGS.stallLimit)
        rw [stallLimit_eq] at hsum ⊢
        omega
      rw [if_neg hcond]
      show Stall.runLoop env (i + 1)
          { totalDeleted := T, stallCounter := c + 1 } fuel =
        some (RunOutcome.halted T Stall.stallMessage)
      exact ih (i + 1) (c + 1) T fuel (by omega)
        (fun j hj => by
          rw [show i + 1 + j = i + (j + 1) from by omega]
          exact hstall (j + 1) (by omega))
        (by omega)

/-- A concrete simulated UI presenting the batches `bs` in order, with all
controls present and each batch's selectable controls gone (re-poll count 0)
after its delete-confirm action. -/
def batchEnv (bs : List Nat) : Env where
  containerAt := fun _ => true
  batchAt := fun i => bs.getD i 0
  deleteBtnAt := fun _ => true
  buttonTextsAt := fun _ => ["Move to trash"]
  afterAt := fun _ => 0
  boxFailsAt := fun _ _ => false

theorem batchEnv_presents (bs : List Nat) :
    presentsBatches (batchEnv bs) 0 bs := by
  refine ⟨fun j hj => ⟨rfl, by simp [batchEnv], rfl, rfl, rfl⟩, rfl, ?_⟩
  show (batchEnv bs).batchAt (0 + bs.length) = 0
  simp [batchEnv, List.getD_eq_default]

/-- The plain loop's outcome does not depend on which individual checkbox
clicks throw: the per-box `try`/`catch` makes the selection step total. -/
theorem runLoopPlain_boxFails (env : Env) (f g : Nat → Nat → Bool) :
    ∀ fuel i T,
      Plain.runLoop { env with boxFailsAt := f } i T fuel =
        Plain.runLoop { env with boxFailsAt := g } i T fuel := by
  intro fuel
  induction fuel with
  | zero => intro i T; rfl
  | succ fuel ih =>
    intro i T
    rw [Plain.runLoop, Plain.runLoop]
    have hiter : Plain.iterBody { env with boxFailsAt := f } i T =
        Plain.iterBody { env with boxFailsAt := g } i T := rfl
    rw [hiter]
    cases Plain.iterBody { env with boxFailsAt := g } i T with
    | ok t => exact ih (i + 1) t
    | error e => rfl

/-- The stall loop's outcome does not depend on which individual checkbox
clicks throw. -/
theorem runLoopStall_boxFails (env : Env) (f g : Nat → Nat → Bool) :
    ∀ fuel i st,
      Stall.runLoop { env with boxFailsAt := f } i st fuel =
        Stall.runLoop { env with boxFailsAt := g } i st fuel := by
  intro fuel
  induction fuel with
  | zero => intro i st; rfl
  | succ fuel ih =>
    intro i st
    rw [Stall.runLoop, Stall.runLoop]
    have hiter : Stall.iterBody { env with boxFailsAt := f } i st =
        Stall.iterBody { env with boxFailsAt := g } i st := rfl
    rw [hiter]
    cases Stall.iterBody { env with boxFailsAt := g } i st with
    | ok st1 => exact ih (i + 1) st1
    | error m => rfl

/-! ### Claim theorems -/

/-- C1: for a simulated UI holding `N` items presented across `B` batches
(each batch's selectable controls disappearing after the delete-confirm
sequence), the batch loop of either variant terminates (within `B + 1`
iterations) and reports total = `N` (`= bs.sum` for batch sizes `bs`),
ending in the normal Done state. -/
theorem claim1_batches_total (bs : List Nat) (fuel : Nat)
    (hpos : ∀ x ∈ bs, 0 < x) (hfuel : bs.length < fuel) :
    Plain.runPhotoDeleter (batchEnv bs) fuel =
      some (RunOutcome.done bs.sum) ∧
    Stall.runPhotoDeleter (batchEnv bs) fuel =
      some (RunOutcome.done bs.sum) := by
  constructor
  · unfold Plain.runPhotoDeleter
    have h := runLoopPlain_batches (batchEnv bs) bs 0 0 fuel
      (batchEnv_presents bs) hpos hfuel
    simpa using h
  · unfold Stall.runPhotoDeleter
    have h := runLoopStall_batches (batchEnv bs) bs 0
      { totalDeleted := 0, stallCounter := 0 } fuel
      (batchEnv_presents bs) hpos hfuel
    simpa using h

theorem claim1_batches_total_witness :
    Plain.runPhotoDeleter (batchEnv [2, 3]) 3 = some (RunOutcome.done 5) ∧
    Stall.runPhotoDeleter (batchEnv [2, 3]) 3 = some (RunOutcome.done 5) := by
  have h := claim1_batches_total [2, 3] 3 (by decide) (by decide)
  exact ⟨by simpa using h.1, by simpa using h.2⟩

/-- C2: in the stall-detection variant, if the post-action item count fails
to decrease at `S = CONFIGS.stallLimit` consecutive iterations starting from
stall counter 0, the loop halts right there with the stall error (the
environment beyond those `S` iterations is unconstrained, so no run performs
more than `S` consecutive stalled retries before halting), and the total is
reported unchanged. -/
theorem claim2_stall_halts (env : Env) (i T fuel : Nat)
    (hstall : ∀ j, j < CONFIGS.stallLimit → stallsAt env (i + j))
    (hfuel : CONFIGS.stallLimit ≤ fuel) :
    Stall.runLoop env i { totalDeleted := T, stallCounter := 0 } fuel =
      some (RunOutcome.halted T Stall.stallMessage) := by
  apply runLoopStall_stalls env 4 i 0 T fuel (by rw [stallLimit_eq])
  · intro j hj
    exact hstall j (by rw [stallLimit_eq]; omega)
  · rw [stallLimit_eq] at hfuel
    omega

/-- A concrete rate-limited page: one selectable photo that is still
selectable after every delete-confirm action. -/
def stallEnv : Env where
  containerAt := fun _ => true
  batchAt := fun _ => 1
  deleteBtnAt := fun _ => true
  buttonTextsAt := fun _ => ["Move to trash"]
  afterAt := fun _ => 1
  boxFailsAt := fun _ _ => false

theorem claim2_stall_halts_witness :
    Stall.runLoop stallEnv 0 { totalDeleted := 0, stallCounter := 0 } 5 =
      some (RunOutcome.halted 0 Stall.stallMessage) :=
  claim2_stall_halts stallEnv 0 0 5
    (fun j _ => ⟨rfl, Nat.one_pos, rfl, rfl, Nat.le_refl 1⟩) (by decide)

/-- C3: the polling primitive polls the probe sequentially at ticks
`1, 2, ...` of the fixed 250 ms interval; it resolves with the probe's
result at the first tick whose result is accepted, provided that tick lies
inside the timeout window, and if no tick inside the window is accepted it
rejects with a timeout error whose message contains the waited-for
description. -/
theorem claim3_waitUntil_contract (probe : Nat → ProbeResult) (d : String)
    (t : Nat) :
    (∀ k0, 0 < k0 → truthyHit (probe k0) = true →
      (∀ j, 0 < j → j < k0 → truthyHit (probe j) = false) →
      k0 * pollIntervalMs ≤ t →
      waitUntil probe d t = WaitResult.found (probe k0) k0) ∧
    ((∀ j, truthyHit (probe j) = false) →
      ∃ pre post, timeoutMessage d t = pre ++ d ++ post ∧
        waitUntil probe d t =
          WaitResult.timedOut (timeoutMessage d t)
            (t / pollIntervalMs + 1)) := by
  constructor
  · intro k0 h1 h2 h3 h4
    exact waitUntil_found probe d t k0 h1 h2 h3 h4
  · intro h
    refine ⟨"Timeout: Could not find ",
      " after " ++ toString (t / 1000) ++ " seconds.", ?_,
      waitUntil_never probe d t h⟩
    simp [timeoutMessage, String.append_assoc]

theorem claim3_waitUntil_contract_witness :
    waitUntil (constProbe (ProbeResult.nodes 2)) "any selectable photo"
      30000 = WaitResult.found (ProbeResult.nodes 2) 1 ∧
    waitUntil (constProbe ProbeResult.noth) "main photo container" 30000 =
      WaitResult.timedOut (timeoutMessage "main photo container" 30000)
        121 := by
  constructor
  · exact (claim3_waitUntil_contract (constProbe (ProbeResult.nodes 2))
      "any selectable photo" 30000).1 1 (by decide) (by decide)
      (fun j h1 h2 => by omega) (by decide)
  · obtain ⟨pre, post, _, heq⟩ :=
      (claim3_waitUntil_contract (constProbe ProbeResult.noth)
        "main photo container" 30000).2 (fun j => rfl)
    simpa [pollIntervalMs] using heq

/-- C5: a run started on an empty page (container present, no selectable
item ever appears) ends in the normal Done state with reported total 0, in
both variants. -/
theorem claim5_empty_done (env : Env) (fuel : Nat)
    (hc : env.containerAt 0 = true) (hb : ∀ i, env.batchAt i = 0)
    (hfuel : 0 < fuel) :
    Plain.runPhotoDeleter env fuel = some (RunOutcome.done 0) ∧
    Stall.runPhotoDeleter env fuel = some (RunOutcome.done 0) := by
  obtain ⟨f, rfl⟩ : ∃ f, fuel = f + 1 := ⟨fuel - 1, by omega⟩
  constructor
  · unfold Plain.runPhotoDeleter
    rw [Plain.runLoop, iterBodyPlain_noItems env 0 0 hc (hb 0)]
  · unfold Stall.runPhotoDeleter
    rw [Stall.runLoop, iterBodyStall_noItems env 0 _ hc (hb 0)]
    simp [includes_noItems]

theorem claim5_empty_done_witness :
    Plain.runPhotoDeleter (batchEnv []) 1 = some (RunOutcome.done 0) ∧
    Stall.runPhotoDeleter (batchEnv []) 1 = some (RunOutcome.done 0) :=
  claim5_empty_done (batchEnv []) 1 rfl (fun _ => rfl) (by decide)

/-- C6: with a probe that never satisfies the condition, the polling
primitive rejects at tick `t / 250 + 1`, whose elapsed time is strictly
greater than the timeout but at most the timeout plus one poll interval,
and which is the first tick whose elapsed time exceeds the timeout. -/
theorem claim6_timeout_timing (probe : Nat → ProbeResult) (d : String)
    (t : Nat) (h : ∀ k, truthyHit (probe k) = false) :
    waitUntil probe d t =
      WaitResult.timedOut (timeoutMessage d t) (t / pollIntervalMs + 1) ∧
    t < (t / pollIntervalMs + 1) * pollIntervalMs ∧
    (t / pollIntervalMs + 1) * pollIntervalMs ≤ t + pollIntervalMs ∧
    ∀ j, 0 < j → t < j * pollIntervalMs → t / pollIntervalMs + 1 ≤ j := by
  refine ⟨waitUntil_never probe d t h, ?_, ?_, ?_⟩
  · simp only [pollIntervalMs]
    omega
  · simp only [pollIntervalMs]
    omega
  · intro j h1 h2
    simp only [pollIntervalMs] at h2 ⊢
    omega

theorem claim6_timeout_timing_witness :
    waitUntil (constProbe ProbeResult.noth) "main photo container" 500 =
      WaitResult.timedOut (timeoutMessage "main photo container" 500) 3 ∧
    500 < 3 * pollIntervalMs ∧ 3 * pollIntervalMs ≤ 500 + pollIntervalMs := by
  have h := claim6_timeout_timing (constProbe ProbeResult.noth)
    "main photo container" 500 (fun _ => rfl)
  exact ⟨by simpa [pollIntervalMs] using h.1, by decide, by decide⟩

/-- A page whose batch is visible but whose delete button never appears. -/
def noDeleteBtnEnv : Env where
  containerAt := fun _ => true
  batchAt := fun _ => 2
  deleteBtnAt := fun _ => false
  buttonTextsAt := fun _ => ["Move to trash"]
  afterAt := fun _ => 0
  boxFailsAt := fun _ _ => false

/-- C4 counterexample: a Timeout error (the delete button never appeared
within the window) reaches the outer batch loop of the stall-detection
variant, and the run is halted with that timeout message — the
`[SCRIPT HALTED]` path — rather than ending normally in Done, because the
catch block only treats messages containing "any selectable photo" as the
no-more-items case. -/
theorem claim4_counterexample :
    Stall.runPhotoDeleter noDeleteBtnEnv 1 =
      some (RunOutcome.halted 0
        (timeoutMessage "main \"Move to trash\" button" CONFIG.timeout)) := by
  unfold Stall.runPhotoDeleter
  rw [Stall.runLoop,
    iterBodyStall_noDeleteBtn noDeleteBtnEnv 0 _ rfl Nat.zero_lt_two rfl]
  simp [includes_noDeleteBtn]

/-- C4 (amended): in the stall-detection variant, only a Timeout error whose
message names "any selectable photo" (the selectable-controls wait) is
treated as "no more items", ending the run normally in Done with the
accumulated total; Timeout errors from the container wait, the
delete-button wait or the confirmation-button wait halt the run, as do the
stall-threshold and other unexpected errors.  In the plain variant, every
error caught by the loop ends the run normally. -/
theorem claim4_amended (env : Env) (i T c fuel : Nat) (hfuel : 0 < fuel) :
    (env.containerAt i = true → env.batchAt i = 0 →
      Stall.runLoop env i { totalDeleted := T, stallCounter := c } fuel =
        some (RunOutcome.done T)) ∧
    (env.containerAt i = false →
      Stall.runLoop env i { totalDeleted := T, stallCounter := c } fuel =
        some (RunOutcome.halted T
          (timeoutMessage "main photo container" CONFIGS.timeout))) ∧
    (env.containerAt i = true → 0 < env.batchAt i →
      env.deleteBtnAt i = false →
      Stall.runLoop env i { totalDeleted := T, stallCounter := c } fuel =
        some (RunOutcome.halted T
          (timeoutMessage "main \"Move to trash\" button" CONFIG.timeout))) ∧
    (env.containerAt i = true → 0 < env.batchAt i →
      env.deleteBtnAt i = true → confirmAvailable env i = false →
      Stall.runLoop env i { totalDeleted := T, stallCounter := c } fuel =
        some (RunOutcome.halted T
          (timeoutMessage "confirmation \"Move to trash\" button"
            CONFIG.timeout))) ∧
    (∀ m T2, Plain.iterBody env i T = Except.error (m, T2) →
      Plain.runLoop env i T fuel = some (RunOutcome.done T2)) := by
  obtain ⟨f, rfl⟩ : ∃ f, fuel = f + 1 := ⟨fuel - 1, by omega⟩
  refine ⟨?_, ?_, ?_, ?_, ?_⟩
  · intro hc hb
    rw [Stall.runLoop, iterBodyStall_noItems env i _ hc hb]
    simp [includes_noItems]
  · intro hc
    rw [Stall.runLoop, iterBodyStall_noContainer env i _ hc]
    simp [includes_noContainer]
  · intro hc hb hd
    rw [Stall.runLoop, iterBodyStall_noDeleteBtn env i _ hc hb hd]
    simp [includes_noDeleteBtn]
  · intro hc hb hd hcf
    rw [Stall.runLoop, iterBodyStall_noConfirmBtn env i _ hc hb hd hcf]
    simp [includes_noConfirmBtn]
  · intro m T2 hiter
    rw [Plain.runLoop, hiter]

theorem claim4_amended_witness :
    Stall.runLoop noDeleteBtnEnv 0 { totalDeleted := 0, stallCounter := 0 }
      1 = some (RunOutcome.halted 0
        (timeoutMessage "main \"Move to trash\" button" CONFIG.timeout)) :=
  (claim4_amended noDeleteBtnEnv 0 0 0 1 (by decide)).2.2.1 rfl
    Nat.zero_lt_two rfl

/-- C7: in the stall variant, an iteration whose post-action count is
strictly smaller than the pre-action count resets the stall counter to 0 and
adds the difference (pre-action minus post-action count) to the total. -/
theorem claim7_decrease_resets (env : Env) (i : Nat) (st : Stall.LoopState)
    (hc : env.containerAt i = true) (hd : env.deleteBtnAt i = true)
    (hcf : confirmAvailable env i = true)
    (hdec : env.afterAt i < env.batchAt i) :
    Stall.iterBody env i st =
      Except.ok
        { totalDeleted := st.totalDeleted + (env.batchAt i - env.afterAt i),
          stallCounter := 0 } := by
  rw [iterBodyStall_eval env i st hc (by omega) hd hcf]
  rw [if_neg (by omega)]

theorem claim7_decrease_resets_witness :
    Stall.iterBody (batchEnv [3]) 0 { totalDeleted := 7, stallCounter := 2 } =
      Except.ok { totalDeleted := 10, stallCounter := 0 } := by
  have h := claim7_decrease_resets (batchEnv [3]) 0
    { totalDeleted := 7, stallCounter := 2 } rfl rfl rfl (by decide)
  simpa using h

/-- C8: individual control-activation failures within a batch do not abort
the batch: all `n` found controls are attempted (a throwing click is caught
and only logged), and the runs of both variants are unchanged by which
clicks throw — the iteration always proceeds to the delete-confirm
sequence. -/
theorem claim8_click_failures (env : Env) (f g : Nat → Nat → Bool)
    (i n T fuel : Nat) (st : Stall.LoopState) :
    (selectBatch (f i) n).length = n ∧
    Plain.runLoop { env with boxFailsAt := f } i T fuel =
      Plain.runLoop { env with boxFailsAt := g } i T fuel ∧
    Stall.runLoop { env with boxFailsAt := f } i st fuel =
      Stall.runLoop { env with boxFailsAt := g } i st fuel := by
  refine ⟨by simp [selectBatch], ?_, ?_⟩
  · exact runLoopPlain_boxFails env f g fuel i T
  · exact runLoopStall_boxFails env f g fuel i st

/-- C9: `executeDeletion` performs, in strict order: wait for the primary
delete control and click it, then wait for the confirmation control whose
visible text equals the configured text exactly and click it, then pause
for `CONFIG.actionDelay` ms; if either control never appears, the
corresponding wait's timeout error propagates, with only the earlier
clicks performed. -/
theorem claim9_executeDeletion_contract (env : Env) (i : Nat) :
    (env.deleteBtnAt i = true → confirmAvailable env i = true →
      executeDeletion env i =
        ([Event.clickDelete, Event.clickConfirm,
          Event.sleepMs CONFIG.actionDelay], none)) ∧
    (env.deleteBtnAt i = false →
      executeDeletion env i =
        ([], some (timeoutMessage "main \"Move to trash\" button"
          CONFIG.timeout))) ∧
    (env.deleteBtnAt i = true → confirmAvailable env i = false →
      executeDeletion env i =
        ([Event.clickDelete],
          some (timeoutMessage "confirmation \"Move to trash\" button"
            CONFIG.timeout))) := by
  refine ⟨?_, ?_, ?_⟩
  · intro hd hcf
    unfold executeDeletion
    rw [deleteButtonProbe_present env i hd,
      toExcept_const_truthy ProbeResult.element
        "main \"Move to trash\" button" CONFIG.timeout rfl (by decide)]
    rw [confirmButtonProbe_present env i hcf,
      toExcept_const_truthy ProbeResult.element
        "confirmation \"Move to trash\" button" CONFIG.timeout rfl
        (by decide)]
  · intro hd
    unfold executeDeletion
    rw [deleteButtonProbe_absent env i hd,
      toExcept_const_falsy ProbeResult.noth
        "main \"Move to trash\" button" CONFIG.timeout rfl]
  · intro hd hcf
    unfold executeDeletion
    rw [deleteButtonProbe_present env i hd,
      toExcept_const_truthy ProbeResult.element
        "main \"Move to trash\" button" CONFIG.timeout rfl (by decide)]
    rw [confirmButtonProbe_absent env i hcf,
      toExcept_const_falsy ProbeResult.noth
        "confirmation \"Move to trash\" button" CONFIG.timeout rfl]

theorem claim9_executeDeletion_contract_witness :
    executeDeletion (batchEnv [1]) 0 =
      ([Event.clickDelete, Event.clickConfirm,
        Event.sleepMs CONFIG.actionDelay], none) :=
  (claim9_executeDeletion_contract (batchEnv [1]) 0).1 rfl rfl

/-- C10: in the stall variant, when the post-action verification re-poll
finds no selectable control within its shorter 5000 ms window, its timeout
is swallowed and read as a post-action count of 0 — complete success of the
batch — so a verification timeout never halts the run: the iteration resets
the stall counter and credits the entire pre-action batch count to the
total. -/
theorem claim10_verify_timeout (env : Env) (i : Nat) (st : Stall.LoopState)
    (hc : env.containerAt i = true) (hb : 0 < env.batchAt i)
    (hd : env.deleteBtnAt i = true) (hcf : confirmAvailable env i = true)
    (hav : env.afterAt i = 0) :
    (waitUntil (constProbe (ProbeResult.nodes (env.afterAt i)))
        "any selectable photo" 5000).toExcept =
      Except.error (timeoutMessage "any selectable photo" 5000) ∧
    Stall.iterBody env i st =
      Except.ok { totalDeleted := st.totalDeleted + env.batchAt i,
                  stallCounter := 0 } := by
  constructor
  · rw [hav]
    exact toExcept_const_falsy _ _ _ (by simp [truthyHit])
  · rw [iterBodyStall_eval env i st hc hb hd hcf, hav, if_neg (by omega)]
    simp

theorem claim10_verify_timeout_witness :
    (waitUntil (constProbe (ProbeResult.nodes ((batchEnv [4]).afterAt 0)))
        "any selectable photo" 5000).toExcept =
      Except.error (timeoutMessage "any selectable photo" 5000) ∧
    Stall.iterBody (batchEnv [4]) 0 { totalDeleted := 1, stallCounter := 3 } =
      Except.ok { totalDeleted := 5, stallCounter := 0 } := by
  have h := claim10_verify_timeout (batchEnv [4]) 0
    { totalDeleted := 1, stallCounter := 3 } rfl (by decide) rfl rfl rfl
  exact ⟨h.1, by simpa using h.2⟩
